import Mathlib

/-!
Shallow embedding of the Docker resource lifecycle of `phi/docker/resource/base.py`
and of `str_to_int` from `phi/utils/common.py`.

A Python value returned by a backend read is modelled by `Option PyVal`:
`none` is Python `None`, `some v` any other value (including the Python
`False` that the base `_read` stub returns, which is not `None`).

The overridable backend primitives `_read`, `_create`, `_update`, `_delete`
are modelled by a record of state-passing functions that may raise a Python
exception (`Except Nat`, the `Nat` an opaque error code).  Each lifecycle
method returns the Python result (or the propagated exception), the updated
resource object, the updated backend state, and a trace of the primitive
calls it issued, in order.
-/

/-- A non-None Python value observed from the backend: either a Python bool
(the base `_read` stub returns `False`) or an opaque backend object. -/
inductive PyVal where
  | pyBool : Bool → PyVal
  | obj : Nat → PyVal
deriving DecidableEq, Repr

/-- Which backend primitive was invoked. -/
inductive Prim where
  | readP
  | createP
  | updateP
  | deleteP
deriving DecidableEq, Repr

/-- The four overridable backend primitives of a resource class, as
state-passing functions over a backend state `σ` that may raise. -/
structure Prims (σ : Type) where
  readFn : σ → Except Nat (Option PyVal × σ)
  createFn : σ → Except Nat (Bool × σ)
  updateFn : σ → Except Nat (Bool × σ)
  deleteFn : σ → Except Nat (Bool × σ)

/-- The mutable fields of a `DockerResource` that the lifecycle methods
consult: the three skip flags, the `use_cache` flag (inherited from
`InfraResource`) and the `active_resource` cache field. -/
structure DockerResource where
  skip_create : Bool
  skip_update : Bool
  skip_delete : Bool
  use_cache : Bool
  active_resource : Option PyVal
deriving DecidableEq, Repr

/-- Outcome of running one lifecycle method: the returned value or the
propagated exception, the resource object afterwards, the backend state
afterwards, and the primitive calls issued. -/
structure RunResult (σ : Type) (α : Type) where
  res : Except Nat α
  resrc : DockerResource
  st : σ
  trace : List Prim

/-- `DockerResource.read`: if `self.use_cache and self.active_resource is not
None`, return the cached value; otherwise call `self._read`. -/
def DockerResource.read {σ : Type} (r : DockerResource) (p : Prims σ) (s : σ) :
    RunResult σ (Option PyVal) :=
  if r.use_cache && r.active_resource.isSome then
    ⟨.ok r.active_resource, r, s, []⟩
  else
    match p.readFn s with
    | .ok (v, s₁) => ⟨.ok v, r, s₁, [.readP]⟩
    | .error e => ⟨.error e, r, s, [.readP]⟩

/-- `DockerResource.is_active`: assign `self.active_resource = self._read(...)`
and return whether it is not `None`.  If `_read` raises, the assignment does
not happen and the exception propagates. -/
def DockerResource.is_active {σ : Type} (r : DockerResource) (p : Prims σ) (s : σ) :
    RunResult σ Bool :=
  match p.readFn s with
  | .ok (v, s₁) => ⟨.ok v.isSome, { r with active_resource := v }, s₁, [.readP]⟩
  | .error e => ⟨.error e, r, s, [.readP]⟩

/-- `DockerResource.create`: skip if `skip_create`; else if `self.use_cache
and self.is_active(...)` report already-exists; else call `self._create` and
return its boolean.  Note the Python short-circuit: with `use_cache` false,
`is_active` is not called at all. -/
def DockerResource.create {σ : Type} (r : DockerResource) (p : Prims σ) (s : σ) :
    RunResult σ Bool :=
  if r.skip_create then ⟨.ok true, r, s, []⟩
  else if r.use_cache then
    let ia := r.is_active p s
    match ia.res with
    | .error e => ⟨.error e, ia.resrc, ia.st, ia.trace⟩
    | .ok true => ⟨.ok true, ia.resrc, ia.st, ia.trace⟩
    | .ok false =>
      match p.createFn ia.st with
      | .ok (b, s₁) => ⟨.ok b, ia.resrc, s₁, ia.trace ++ [.createP]⟩
      | .error e => ⟨.error e, ia.resrc, ia.st, ia.trace ++ [.createP]⟩
  else
    match p.createFn s with
    | .ok (b, s₁) => ⟨.ok b, r, s₁, [.createP]⟩
    | .error e => ⟨.error e, r, s, [.createP]⟩

/-- `DockerResource.update`: skip if `skip_update`; else if `is_active` then
call `self._update`, else fall back to `self.create`. -/
def DockerResource.update {σ : Type} (r : DockerResource) (p : Prims σ) (s : σ) :
    RunResult σ Bool :=
  if r.skip_update then ⟨.ok true, r, s, []⟩
  else
    let ia := r.is_active p s
    match ia.res with
    | .error e => ⟨.error e, ia.resrc, ia.st, ia.trace⟩
    | .ok true =>
      match p.updateFn ia.st with
      | .ok (b, s₁) => ⟨.ok b, ia.resrc, s₁, ia.trace ++ [.updateP]⟩
      | .error e => ⟨.error e, ia.resrc, ia.st, ia.trace ++ [.updateP]⟩
    | .ok false =>
      let c := ia.resrc.create p ia.st
      ⟨c.res, c.resrc, c.st, ia.trace ++ c.trace⟩

/-- `DockerResource.delete`: skip if `skip_delete`; else if `is_active` then
call `self._delete`, else report success (resource not active). -/
def DockerResource.delete {σ : Type} (r : DockerResource) (p : Prims σ) (s : σ) :
    RunResult σ Bool :=
  if r.skip_delete then ⟨.ok true, r, s, []⟩
  else
    let ia := r.is_active p s
    match ia.res with
    | .error e => ⟨.error e, ia.resrc, ia.st, ia.trace⟩
    | .ok true =>
      match p.deleteFn ia.st with
      | .ok (b, s₁) => ⟨.ok b, ia.resrc, s₁, ia.trace ++ [.deleteP]⟩
      | .error e => ⟨.error e, ia.resrc, ia.st, ia.trace ++ [.deleteP]⟩
    | .ok false => ⟨.ok true, ia.resrc, ia.st, ia.trace⟩

/-- The base-class primitive stubs of `DockerResource`: `_read` logs a
warning and returns Python `False` (a value that is not `None`); `_create`,
`_update`, `_delete` log a warning and return `False`.  None of them touch
the backend state or raise. -/
def basePrims : Prims Unit where
  readFn := fun _ => .ok (some (PyVal.pyBool false), ())
  createFn := fun _ => .ok (false, ())
  updateFn := fun _ => .ok (false, ())
  deleteFn := fun _ => .ok (false, ())

/-- A fresh resource with all flags at their `InfraResource` defaults:
skip flags false, `use_cache` true, empty cache. -/
def freshResource : DockerResource :=
  ⟨false, false, false, true, none⟩

/-- A concrete one-object backend over state `Bool` (does the object exist).
Read reports the object iff it exists; create makes it exist and succeeds. -/
def primsOneObj : Prims Bool where
  readFn := fun s => .ok (if s then some (PyVal.obj 0) else none, s)
  createFn := fun _ => .ok (true, true)
  updateFn := fun s => .ok (true, s)
  deleteFn := fun _ => .ok (true, false)

/-- A backend whose read always reports the object absent and whose other
primitives all succeed, over the trivial state. -/
def primsAlwaysAbsent : Prims Unit where
  readFn := fun _ => .ok (none, ())
  createFn := fun _ => .ok (true, ())
  updateFn := fun _ => .ok (true, ())
  deleteFn := fun _ => .ok (true, ())

/-- A backend each of whose primitives raises exception code 7. -/
def primsRaise : Prims Unit where
  readFn := fun _ => .error 7
  createFn := fun _ => .error 7
  updateFn := fun _ => .error 7
  deleteFn := fun _ => .error 7

/-- A backend whose read reports the object present while every mutating
primitive raises exception code 7. -/
def primsReadOkMutRaise : Prims Unit where
  readFn := fun _ => .ok (some (PyVal.obj 1), ())
  createFn := fun _ => .error 7
  updateFn := fun _ => .error 7
  deleteFn := fun _ => .error 7

/-- A backend whose read reports the object absent and whose create
primitive raises exception code 7. -/
def primsAbsentCreateRaise : Prims Unit where
  readFn := fun _ => .ok (none, ())
  createFn := fun _ => .error 7
  updateFn := fun _ => .ok (true, ())
  deleteFn := fun _ => .ok (true, ())

/-- A resource with use_cache disabled and nothing skipped. -/
def rNoCache : DockerResource :=
  ⟨false, false, false, false, none⟩

/-- A resource with every skip flag set. -/
def allSkip : DockerResource :=
  ⟨true, true, true, true, none⟩

/-- Digit run of a Python int literal, accumulating its value; accepts a
single underscore only between two digits (the Python 3 grammar). -/
def pyDigitsVal : List Char → Nat → Option Nat
  | [], acc => some acc
  | '_' :: c :: rest, acc =>
    if c.isDigit then pyDigitsVal rest (acc * 10 + (c.toNat - 48)) else none
  | c :: rest, acc =>
    if c.isDigit then pyDigitsVal rest (acc * 10 + (c.toNat - 48)) else none

/-- Strip leading and trailing whitespace from a character list. -/
def trimWs (cs : List Char) : List Char :=
  ((cs.dropWhile Char.isWhitespace).reverse.dropWhile Char.isWhitespace).reverse

/-- Model of Python int(s) on a string: optional surrounding whitespace, an
optional sign, then a nonempty digit run with single underscores allowed
between digits; anything else raises ValueError (error code 1). -/
def pyInt (s : String) : Except Nat Int :=
  match trimWs s.data with
  | [] => .error 1
  | c :: rest =>
    let neg := c = '-'
    let body := if c = '-' || c = '+' then rest else c :: rest
    match body with
    | [] => .error 1
    | d :: ds =>
      if d.isDigit then
        match pyDigitsVal (d :: ds) 0 with
        | some n => .ok (if neg then -(n : Int) else (n : Int))
        | none => .error 1
      else .error 1

/-- str_to_int from phi/utils/common.py: None maps to None, otherwise the
result of int(inp) with any exception converted to None. -/
def str_to_int : Option String → Option Int
  | none => none
  | some s =>
    match pyInt s with
    | .ok n => some n
    | .error _ => none

/-- Claim C7 (confirmed): when the skip flag of an operation is set, that
operation returns true, issues zero backend calls, and leaves the resource
object and the backend state entirely unchanged, whatever the remote state. -/
theorem skip_flags_short_circuit {σ : Type} (p : Prims σ) (r : DockerResource) (s : σ) :
    (r.skip_create = true → r.create p s = ⟨.ok true, r, s, []⟩) ∧
    (r.skip_update = true → r.update p s = ⟨.ok true, r, s, []⟩) ∧
    (r.skip_delete = true → r.delete p s = ⟨.ok true, r, s, []⟩) := by
  refine ⟨fun h => ?_, fun h => ?_, fun h => ?_⟩ <;>
    simp [DockerResource.create, DockerResource.update, DockerResource.delete, h]

/-- Witness for C7 at a concrete all-skip resource and a concrete backend. -/
theorem skip_flags_short_circuit_witness :
    allSkip.create primsOneObj false = ⟨.ok true, allSkip, false, []⟩ ∧
    allSkip.update primsOneObj false = ⟨.ok true, allSkip, false, []⟩ ∧
    allSkip.delete primsOneObj false = ⟨.ok true, allSkip, false, []⟩ := by
  have h := skip_flags_short_circuit primsOneObj allSkip false
  exact ⟨h.1 rfl, h.2.1 rfl, h.2.2 rfl⟩

/-- Claim C8 (confirmed): read never changes the resource object — in
particular the active_resource cache — even when it performs a fresh backend
read, and is_active is the operation that assigns the cache, storing exactly
the value the read primitive returned. -/
theorem read_preserves_cache {σ : Type} (p : Prims σ) (r : DockerResource) (s : σ) :
    (r.read p s).resrc = r ∧
    (∀ v s₁, p.readFn s = .ok (v, s₁) →
      (r.is_active p s).resrc = { r with active_resource := v }) := by
  constructor
  · unfold DockerResource.read
    split
    · rfl
    · split <;> rfl
  · intro v s₁ h
    simp [DockerResource.is_active, h]

/-- Witness for C8: a fresh backend read that returns absent leaves the
resource unchanged by read, and is_active stores the read value. -/
theorem read_preserves_cache_witness :
    (freshResource.read primsOneObj false).resrc = freshResource ∧
    (freshResource.is_active primsOneObj false).resrc =
      { freshResource with active_resource := none } := by
  have h := read_preserves_cache primsOneObj freshResource false
  exact ⟨h.1, h.2 none false rfl⟩

/-- Claim C9 (confirmed): is_active returns true exactly when the read
primitive returns a non-None value and caches that value; with the base
stubs, whose read returns Python False (not None), is_active reports the
resource active and stores False in the cache. -/
theorem is_active_iff_read_not_none {σ : Type} (p : Prims σ) (r : DockerResource) (s : σ) :
    (∀ v s₁, p.readFn s = .ok (v, s₁) →
      ((r.is_active p s).res = .ok v.isSome ∧
        (r.is_active p s).resrc.active_resource = v)) ∧
    r.is_active basePrims () =
      ⟨.ok true, { r with active_resource := some (PyVal.pyBool false) }, (), [Prim.readP]⟩ := by
  constructor
  · intro v s₁ h
    constructor <;> simp [DockerResource.is_active, h]
  · simp [DockerResource.is_active, basePrims]

/-- Witness for C9: a present object yields is_active true with the snapshot
cached; the base stubs yield is_active true with False cached. -/
theorem is_active_iff_read_not_none_witness :
    ((freshResource.is_active primsOneObj true).res = .ok true ∧
      (freshResource.is_active primsOneObj true).resrc.active_resource =
        some (PyVal.obj 0)) ∧
    freshResource.is_active basePrims () =
      ⟨.ok true, { freshResource with active_resource := some (PyVal.pyBool false) },
        (), [Prim.readP]⟩ := by
  have h := is_active_iff_read_not_none primsOneObj freshResource true
  exact ⟨h.1 (some (PyVal.obj 0)) true rfl,
    (is_active_iff_read_not_none basePrims freshResource ()).2⟩

/-- Claim C6 (confirmed): with skip_delete=false, delete on a resource whose
backend read reports the object absent returns true and invokes the delete
primitive zero times. -/
theorem delete_absent_trivial {σ : Type} (p : Prims σ) (r : DockerResource) (s s₁ : σ)
    (hd : r.skip_delete = false) (habs : p.readFn s = .ok (none, s₁)) :
    (r.delete p s).res = .ok true ∧ (r.delete p s).trace.count Prim.deleteP = 0 := by
  constructor <;> simp [DockerResource.delete, DockerResource.is_active, hd, habs]

/-- Witness for C6 on the one-object backend in its absent state. -/
theorem delete_absent_trivial_witness :
    (freshResource.delete primsOneObj false).res = .ok true ∧
    (freshResource.delete primsOneObj false).trace.count Prim.deleteP = 0 :=
  delete_absent_trivial primsOneObj freshResource false false rfl rfl

/-- Claim C5 (confirmed): with skip_update=false and skip_create=false, when
every backend read reports the object absent, update delegates to create: it
issues exactly one create-primitive call and zero update-primitive calls,
and returns exactly the outcome of that create primitive. -/
theorem update_self_healing {σ : Type} (p : Prims σ) (r : DockerResource) (s : σ)
    (hu : r.skip_update = false) (hc : r.skip_create = false)
    (habs : ∀ t, p.readFn t = .ok (none, t)) :
    (r.update p s).trace.count Prim.createP = 1 ∧
    (r.update p s).trace.count Prim.updateP = 0 ∧
    (r.update p s).res = Except.map Prod.fst (p.createFn s) := by
  rcases hcf : p.createFn s with ⟨b, s₁⟩ | e <;>
    cases hcu : r.use_cache <;>
      refine ⟨?_, ?_, ?_⟩ <;>
        simp [DockerResource.update, DockerResource.is_active, DockerResource.create,
          hu, hc, hcu, hcf, habs, Except.map]

/-- Witness for C5 on the always-absent backend, whose create succeeds. -/
theorem update_self_healing_witness :
    (freshResource.update primsAlwaysAbsent ()).trace.count Prim.createP = 1 ∧
    (freshResource.update primsAlwaysAbsent ()).trace.count Prim.updateP = 0 ∧
    (freshResource.update primsAlwaysAbsent ()).res = .ok true := by
  have h := update_self_healing primsAlwaysAbsent freshResource () rfl rfl (fun t => rfl)
  exact ⟨h.1, h.2.1, h.2.2⟩

/-- Claim C1 counterexample: with use_cache=false (and skip_create=false),
create invokes the backend create primitive without any preceding read —
here even though the object already exists on the backend. -/
theorem create_without_read_cex :
    (rNoCache.create primsOneObj true).trace = [Prim.createP] ∧
    Prim.readP ∉ (rNoCache.create primsOneObj true).trace := by
  refine ⟨rfl, ?_⟩
  decide

/-- Claim C1 amended: only when use_cache=true is the create primitive
guarded — it is invoked exactly when a fresh read returned None, and then
the trace is that read followed by the create; with use_cache=false and
skip_create=false, create invokes the create primitive with no read. -/
theorem create_read_guard {σ : Type} (p : Prims σ) (r : DockerResource) (s : σ) :
    (r.use_cache = true → Prim.createP ∈ (r.create p s).trace →
      ∃ s₁, p.readFn s = .ok (none, s₁) ∧
        (r.create p s).trace = [Prim.readP, Prim.createP]) ∧
    (r.use_cache = false → r.skip_create = false →
      (r.create p s).trace = [Prim.createP]) := by
  constructor
  · intro hu hmem
    cases hsc : r.skip_create with
    | true =>
      rw [DockerResource.create, if_pos hsc] at hmem
      simp at hmem
    | false =>
      rcases hr : p.readFn s with e | ⟨v, s₁⟩
      · exfalso
        simp [DockerResource.create, DockerResource.is_active, hsc, hu, hr] at hmem
      · cases v with
        | none =>
          refine ⟨s₁, rfl, ?_⟩
          rcases hc : p.createFn s₁ with e | ⟨b, s₂⟩ <;>
            simp [DockerResource.create, DockerResource.is_active, hsc, hu, hr, hc]
        | some w =>
          exfalso
          simp [DockerResource.create, DockerResource.is_active, hsc, hu, hr] at hmem
  · intro hu hsc
    rcases hc : p.createFn s with ⟨b, s₁⟩ | e <;>
      simp [DockerResource.create, hsc, hu, hc]

/-- Witness for the amended C1: on the one-object backend in its absent
state, the guarded branch produces read-then-create, while the resource with
use_cache=false produces a bare create call. -/
theorem create_read_guard_witness :
    (∃ s₁, primsOneObj.readFn false = .ok (none, s₁) ∧
      (freshResource.create primsOneObj false).trace = [Prim.readP, Prim.createP]) ∧
    (rNoCache.create primsOneObj false).trace = [Prim.createP] := by
  have h := create_read_guard primsOneObj freshResource false
  have h₂ := create_read_guard primsOneObj rNoCache false
  exact ⟨h.1 rfl (by decide), h₂.2 rfl rfl⟩

/-- Claim C2 counterexample: on the one-object backend, the first create
succeeds against the initially absent object, yet the immediate second
create with use_cache=true still performs a backend call — is_active always
issues a fresh read — so its trace is not empty. -/
theorem second_create_calls_backend_cex :
    (freshResource.create primsOneObj false).res = .ok true ∧
    ((freshResource.create primsOneObj false).resrc.create primsOneObj
      (freshResource.create primsOneObj false).st).trace ≠ [] := by
  refine ⟨rfl, ?_⟩
  decide

/-- Claim C2 amended: with use_cache=true and skip_create=false, if the
first create succeeds from an absent object and the read after creation
reports it present, the second create returns true and performs exactly one
backend call — a read, not a create — so the create primitive runs once
across the two calls. -/
theorem second_create_cache_amended {σ : Type} (p : Prims σ) (r : DockerResource)
    (s s₁ s₂ s₃ : σ) (v : PyVal)
    (hu : r.use_cache = true) (hsc : r.skip_create = false)
    (h₁ : p.readFn s = .ok (none, s₁))
    (h₂ : p.createFn s₁ = .ok (true, s₂))
    (h₃ : p.readFn s₂ = .ok (some v, s₃)) :
    ∃ r₁, r.create p s = ⟨.ok true, r₁, s₂, [Prim.readP, Prim.createP]⟩ ∧
      (r₁.create p s₂).res = .ok true ∧
      (r₁.create p s₂).trace = [Prim.readP] ∧
      ([Prim.readP, Prim.createP] ++ (r₁.create p s₂).trace).count Prim.createP = 1 := by
  refine ⟨{ r with active_resource := none }, ?_, ?_, ?_, ?_⟩
  · simp [DockerResource.create, DockerResource.is_active, hsc, hu, h₁, h₂]
  · simp [DockerResource.create, DockerResource.is_active, hsc, hu, h₃]
  · simp [DockerResource.create, DockerResource.is_active, hsc, hu, h₃]
  · have ht : (({ r with active_resource := none } : DockerResource).create p s₂).trace =
        [Prim.readP] := by
      simp [DockerResource.create, DockerResource.is_active, hsc, hu, h₃]
    rw [ht]
    decide

/-- Witness for the amended C2 on the one-object backend. -/
theorem second_create_cache_amended_witness :
    ∃ r₁, freshResource.create primsOneObj false =
        ⟨.ok true, r₁, true, [Prim.readP, Prim.createP]⟩ ∧
      (r₁.create primsOneObj true).res = .ok true ∧
      (r₁.create primsOneObj true).trace = [Prim.readP] ∧
      ([Prim.readP, Prim.createP] ++
        (r₁.create primsOneObj true).trace).count Prim.createP = 1 :=
  second_create_cache_amended primsOneObj freshResource false false true true
    (PyVal.obj 0) rfl rfl rfl rfl rfl

/-- Claim C3 counterexample: a raising create primitive propagates out of
create (use_cache=false), and a raising read primitive propagates out of
update and delete; none of them is converted to a false return. -/
theorem lifecycle_raise_propagates_cex :
    (rNoCache.create primsRaise ()).res = .error 7 ∧
    (freshResource.update primsRaise ()).res = .error 7 ∧
    (freshResource.delete primsRaise ()).res = .error 7 :=
  ⟨rfl, rfl, rfl⟩

/-- Claim C3 amended: the lifecycle methods contain no exception handler,
so on every non-skipped path the operation's result is exactly the outcome
of the primitive it reached — an exception raised by any backend primitive
(read, create, update or delete, at any position on the path) propagates
unchanged out of create, update and delete, and a false result arises only
from a primitive that itself returned False; update's absent branch returns
create's outcome and delete's absent branch returns true. -/
theorem lifecycle_error_propagation {σ : Type} (p : Prims σ) (r : DockerResource)
    (s : σ) :
    (r.skip_create = false → r.use_cache = false →
      (r.create p s).res = Except.map Prod.fst (p.createFn s)) ∧
    (∀ e, r.skip_create = false → r.use_cache = true → p.readFn s = .error e →
      (r.create p s).res = .error e) ∧
    (∀ s₁, r.skip_create = false → r.use_cache = true → p.readFn s = .ok (none, s₁) →
      (r.create p s).res = Except.map Prod.fst (p.createFn s₁)) ∧
    (∀ e, r.skip_update = false → p.readFn s = .error e →
      (r.update p s).res = .error e) ∧
    (∀ v s₁, r.skip_update = false → p.readFn s = .ok (some v, s₁) →
      (r.update p s).res = Except.map Prod.fst (p.updateFn s₁)) ∧
    (∀ s₁, r.skip_update = false → p.readFn s = .ok (none, s₁) →
      (r.update p s).res =
        (({ r with active_resource := none } : DockerResource).create p s₁).res) ∧
    (∀ e, r.skip_delete = false → p.readFn s = .error e →
      (r.delete p s).res = .error e) ∧
    (∀ v s₁, r.skip_delete = false → p.readFn s = .ok (some v, s₁) →
      (r.delete p s).res = Except.map Prod.fst (p.deleteFn s₁)) := by
  refine ⟨fun h₁ h₂ => ?_, fun e h₁ h₂ h₃ => ?_, fun s₁ h₁ h₂ h₃ => ?_,
    fun e h₁ h₂ => ?_, fun v s₁ h₁ h₂ => ?_, fun s₁ h₁ h₂ => ?_,
    fun e h₁ h₂ => ?_, fun v s₁ h₁ h₂ => ?_⟩
  · rcases hc : p.createFn s with e | ⟨b, s₁⟩ <;>
      simp [DockerResource.create, h₁, h₂, hc, Except.map]
  · simp [DockerResource.create, DockerResource.is_active, h₁, h₂, h₃]
  · rcases hc : p.createFn s₁ with e | ⟨b, s₂⟩ <;>
      simp [DockerResource.create, DockerResource.is_active, h₁, h₂, h₃, hc, Except.map]
  · simp [DockerResource.update, DockerResource.is_active, h₁, h₂]
  · rcases hupd : p.updateFn s₁ with e | ⟨b, s₂⟩ <;>
      simp [DockerResource.update, DockerResource.is_active, h₁, h₂, hupd, Except.map]
  · simp [DockerResource.update, DockerResource.is_active, h₁, h₂]
  · simp [DockerResource.delete, DockerResource.is_active, h₁, h₂]
  · rcases hdel : p.deleteFn s₁ with e | ⟨b, s₂⟩ <;>
      simp [DockerResource.delete, DockerResource.is_active, h₁, h₂, hdel, Except.map]

/-- Witness for the amended C3: every primitive position is exercised — a
raising create in both create paths and in update's fallback, a raising
read, update and delete, plus the False-return conversions of the base
stubs. -/
theorem lifecycle_error_propagation_witness :
    (rNoCache.create primsAbsentCreateRaise ()).res = .error 7 ∧
    (freshResource.create primsRaise ()).res = .error 7 ∧
    (freshResource.create primsAbsentCreateRaise ()).res = .error 7 ∧
    (freshResource.update primsRaise ()).res = .error 7 ∧
    (freshResource.update primsReadOkMutRaise ()).res = .error 7 ∧
    (freshResource.update primsAbsentCreateRaise ()).res = .error 7 ∧
    (freshResource.delete primsRaise ()).res = .error 7 ∧
    (freshResource.delete primsReadOkMutRaise ()).res = .error 7 ∧
    (rNoCache.create basePrims ()).res = .ok false ∧
    (freshResource.update basePrims ()).res = .ok false := by
  have h₁ := lifecycle_error_propagation primsAbsentCreateRaise rNoCache ()
  have h₂ := lifecycle_error_propagation primsRaise freshResource ()
  have h₃ := lifecycle_error_propagation primsAbsentCreateRaise freshResource ()
  have h₄ := lifecycle_error_propagation primsReadOkMutRaise freshResource ()
  have h₅ := lifecycle_error_propagation basePrims rNoCache ()
  have h₆ := lifecycle_error_propagation basePrims freshResource ()
  refine ⟨h₁.1 rfl rfl, h₂.2.1 7 rfl rfl rfl, h₃.2.2.1 () rfl rfl rfl,
    h₂.2.2.2.1 7 rfl rfl, h₄.2.2.2.2.1 (PyVal.obj 1) () rfl rfl, ?_,
    h₂.2.2.2.2.2.2.1 7 rfl rfl, h₄.2.2.2.2.2.2.2 (PyVal.obj 1) () rfl rfl,
    h₅.1 rfl rfl, h₆.2.2.2.2.1 (PyVal.pyBool false) () rfl rfl⟩
  exact (h₃.2.2.2.2.2.1 () rfl rfl).trans (h₃.2.2.1 () rfl rfl rfl)

/-- Claim C4 counterexample: after is_active observed the object absent, the
cache of this use_cache=true resource holds the known-Absent result (stored
as None), yet read still issues a backend read call instead of returning
the cached Absent. -/
theorem read_cached_absent_cex :
    (freshResource.is_active primsOneObj false).resrc.use_cache = true ∧
    (freshResource.is_active primsOneObj false).resrc.active_resource = none ∧
    ((freshResource.is_active primsOneObj false).resrc.read primsOneObj
      (freshResource.is_active primsOneObj false).st).trace = [Prim.readP] :=
  ⟨rfl, rfl, rfl⟩

/-- Claim C4 amended: with use_cache=true, read returns the cached value
without a backend call only when the cache holds a Present (non-None)
snapshot; a known-Absent result is stored as None — indistinguishable from
never-read — so read performs a fresh backend read, exactly as it always
does when use_cache=false. -/
theorem read_cache_behavior {σ : Type} (p : Prims σ) (r : DockerResource) (s : σ) :
    (∀ v, r.use_cache = true → r.active_resource = some v →
      r.read p s = ⟨.ok (some v), r, s, []⟩) ∧
    (r.use_cache = false → (r.read p s).trace = [Prim.readP]) ∧
    (r.active_resource = none → (r.read p s).trace = [Prim.readP]) := by
  refine ⟨fun v h₁ h₂ => ?_, fun h => ?_, fun h => ?_⟩
  · simp [DockerResource.read, h₁, h₂]
  · unfold DockerResource.read
    rw [h]
    simp only [Bool.false_and, Bool.false_eq_true, if_false]
    rcases p.readFn s with e | ⟨v, s₁⟩ <;> rfl
  · unfold DockerResource.read
    rw [h]
    simp only [Option.isSome_none, Bool.and_false, Bool.false_eq_true, if_false]
    rcases p.readFn s with e | ⟨v, s₁⟩ <;> rfl

/-- Witness for the amended C4: a Present cache is returned with no call;
a use_cache=false resource and an empty cache each force one read call. -/
theorem read_cache_behavior_witness :
    ({ freshResource with active_resource := some (PyVal.obj 3) } : DockerResource).read
        primsOneObj false =
      ⟨.ok (some (PyVal.obj 3)),
        { freshResource with active_resource := some (PyVal.obj 3) }, false, []⟩ ∧
    (rNoCache.read primsOneObj false).trace = [Prim.readP] ∧
    (freshResource.read primsOneObj false).trace = [Prim.readP] := by
  have h₁ := read_cache_behavior primsOneObj
    ({ freshResource with active_resource := some (PyVal.obj 3) } : DockerResource) false
  have h₂ := read_cache_behavior primsOneObj rNoCache false
  have h₃ := read_cache_behavior primsOneObj freshResource false
  exact ⟨h₁.1 (PyVal.obj 3) rfl rfl, h₂.2.1 rfl, h₃.2.2 rfl⟩

/-- Claim C10 (confirmed): str_to_int is a total function that raises
nothing: on None it returns None, on a string that int() parses it returns
that integer, and on a string on which int() raises it returns None. -/
theorem str_to_int_total :
    str_to_int none = none ∧
    (∀ s n, pyInt s = .ok n → str_to_int (some s) = some n) ∧
    (∀ s e, pyInt s = .error e → str_to_int (some s) = none) := by
  refine ⟨rfl, fun s n h => ?_, fun s e h => ?_⟩ <;> simp [str_to_int, h]

/-- Witness for C10: concrete evaluations covering the parse and the
ValueError branch, including sign, whitespace and underscore handling. -/
theorem str_to_int_total_witness :
    str_to_int (some "42") = some 42 ∧
    str_to_int (some " -1_5 ") = some (-15) ∧
    str_to_int (some "abc") = none ∧
    str_to_int (some "") = none ∧
    str_to_int (some "1__2") = none :=
  ⟨str_to_int_total.2.1 "42" 42 rfl,
   str_to_int_total.2.1 " -1_5 " (-15) rfl,
   str_to_int_total.2.2 "abc" 1 rfl,
   str_to_int_total.2.2 "" 1 rfl,
   str_to_int_total.2.2 "1__2" 1 rfl⟩
